import Mathlib

set_option autoImplicit false

namespace HaCore

namespace Fritzbox

/-- Integration domain constant of the fritzbox component. -/
def DOMAIN : String := "fritzbox"

/-- The fields of a pyfritzhome device that the coordinator reads: the stable
hardware address (ain), the display name, the presence flag, whether the
device reports a power meter, and the meter readings.  `voltage` and `power`
are optional because `_update_fritz_devices` guards them with an isinstance
int check before comparing; `energy` is compared unguarded. -/
structure FritzhomeDevice where
  ain : String
  name : String
  present : Bool
  has_powermeter : Bool
  voltage : Option Int
  power : Option Int
  energy : Int
  deriving Repr, DecidableEq

/-- A pyfritzhome template: only its hardware address is used here. -/
structure FritzhomeTemplate where
  ain : String
  deriving Repr, DecidableEq

/-- Insertion into a Python dict: an existing key is overwritten in place, a
new key is appended at the end. -/
def dictInsert {α : Type} (m : List (String × α)) (k : String) (v : α) :
    List (String × α) :=
  if m.any (fun p => p.1 == k) then
    m.map (fun p => if p.1 == k then (k, v) else p)
  else
    m ++ [(k, v)]

/-- Lookup in a Python dict. -/
def dictGet {α : Type} (m : List (String × α)) (k : String) : Option α :=
  (m.find? (fun p => p.1 == k)).map (fun p => p.2)

/-- The key view of a Python dict, in insertion order (`list(d)`). -/
def dictKeys {α : Type} (m : List (String × α)) : List String :=
  m.map (fun p => p.1)

/-- True when an optional reading is an int (the Python isinstance check) and
is non-positive. -/
def nonposInt : Option Int → Bool
  | some v => decide (v ≤ 0)
  | none => false

/-- The availability correction inside `_update_fritz_devices`: a device that
reports a power meter, is marked present, whose voltage and power readings are
ints and non-positive, and whose energy is non-positive, is assumed
unavailable (a workaround for a hub firmware quirk). -/
def applyAvailabilityCorrection (d : FritzhomeDevice) : FritzhomeDevice :=
  if d.has_powermeter && d.present && nonposInt d.voltage && nonposInt d.power
      && decide (d.energy ≤ 0) then
    { d with present := false }
  else
    d

/-- An entity registry entry: only the fields the cleanup reads. -/
structure EntityEntry where
  entity_id : String
  unique_id : String
  config_entry_id : String
  deriving Repr, DecidableEq

/-- A device registry entry: only the fields the cleanup reads. -/
structure DeviceEntry where
  id : String
  identifiers : List (String × String)
  config_entry_ids : List String
  deriving Repr, DecidableEq

/-- The platform registries the cleanup acts on. -/
@[ext]
structure Registry where
  entities : List EntityEntry
  devices : List DeviceEntry
  deriving Repr, DecidableEq

/-- Modelled from the spec: the platform entity registry
(homeassistant.helpers.entity_registry, not under src) lists the entries
associated with one integration instance. -/
def entityEntriesFor (es : List EntityEntry) (entry_id : String) :
    List EntityEntry :=
  es.filter (fun e => e.config_entry_id == entry_id)

/-- Modelled from the spec: removing an entity entry
(entity_registry.async_remove, not under src) deletes the record with the
given entity id. -/
def removeEntity (es : List EntityEntry) (eid : String) : List EntityEntry :=
  es.filter (fun e => !(e.entity_id == eid))

/-- Modelled from the spec: the platform device registry
(homeassistant.helpers.device_registry, not under src) lists the entries
attached to one integration instance. -/
def deviceEntriesFor (ds : List DeviceEntry) (entry_id : String) :
    List DeviceEntry :=
  ds.filter (fun d => d.config_entry_ids.contains entry_id)

/-- Modelled from the spec: detaching a device from an integration instance
(device_registry.async_update_device with remove_config_entry_id, not under
src) drops that config entry id from the record "without deleting the device
record itself, since it may belong to another integration". -/
def detachDevice (entry_id : String) (d : DeviceEntry) : DeviceEntry :=
  { d with config_entry_ids := d.config_entry_ids.filter (fun c => !(c == entry_id)) }

/-- Modelled from the spec: the registry applies the detach to the record with
the given device id. -/
def updateDeviceRemoveEntry (ds : List DeviceEntry) (did : String)
    (entry_id : String) : List DeviceEntry :=
  ds.map (fun d => if d.id == did then detachDevice entry_id d else d)

/-- The first underscore-separated segment of a unique id, as computed by the
Python expression `unique_id.split("_")[0]`: the characters before the first
underscore, or the whole string when it has none. -/
def uniqueIdHead (uid : String) : String :=
  ⟨uid.data.takeWhile (fun c => !(c == '_'))⟩

/-- FritzboxDataUpdateCoordinator.cleanup_removed_devices: remove every entity
entry of this config entry whose unique id's first underscore segment is not a
currently valid ain, and detach from this config entry every device entry of
this config entry none of whose identifiers is (DOMAIN, ain) for a valid ain. -/
def cleanup_removed_devices (entry_id : String) (avaiable_ains : List String)
    (reg : Registry) : Registry :=
  let entities :=
    (entityEntriesFor reg.entities entry_id).foldl
      (fun acc ent =>
        if avaiable_ains.contains (uniqueIdHead ent.unique_id) then acc
        else removeEntity acc ent.entity_id)
      reg.entities
  let identifiers := avaiable_ains.map (fun ain => (DOMAIN, ain))
  let devices :=
    (deviceEntriesFor reg.devices entry_id).foldl
      (fun acc dev =>
        if dev.identifiers.any (fun i => identifiers.contains i) then acc
        else updateDeviceRemoveEntry acc dev.id entry_id)
      reg.devices
  ⟨entities, devices⟩

/-- The coordinator's snapshot pair. -/
structure FritzboxCoordinatorData where
  devices : List (String × FritzhomeDevice)
  templates : List (String × FritzhomeTemplate)
  deriving Repr, DecidableEq

/-- The two exception classes the fetch distinguishes: a requests connection
error and an HTTP error. -/
inductive FetchError where
  | connError
  | httpError
  deriving Repr, DecidableEq

/-- Modelled from the spec: one poll cycle's interaction with the vendor
client (pyfritzhome, an external black box): the outcome of the first fetch
(update_devices and, when enabled, update_templates), whether a fresh login
succeeds, the outcome of the retried fetch, and the device and template lists
the client then reports. -/
structure FritzBehavior where
  fetch1 : Option FetchError
  loginOk : Bool
  fetch2 : Option FetchError
  fetchedDevices : List FritzhomeDevice
  fetchedTemplates : List FritzhomeTemplate

/-- How one poll cycle ends: a fresh snapshot, a retryable UpdateFailed, a
fatal ConfigEntryAuthFailed, or an exception that propagates uncaught (a
failure of the retried fetch). -/
inductive PollOutcome where
  | ok (data : FritzboxCoordinatorData)
  | updateFailed
  | configEntryAuthFailed
  | uncaught (e : FetchError)
  deriving Repr, DecidableEq

/-- The coordinator state a poll cycle reads and writes. -/
structure CoordinatorState where
  config_entry_id : String
  has_templates : Bool
  data : FritzboxCoordinatorData
  new_devices : Finset String
  new_templates : Finset String
  registry : Registry

/-- One poll cycle's result: the outcome, the argument cleanup_removed_devices
was invoked with (if it was), and the coordinator state afterwards. -/
structure StepResult where
  outcome : PollOutcome
  cleanupArg : Option (List String)
  state : CoordinatorState

/-- The device map built by the poll loop: each fetched device, after the
availability correction, stored under its ain. -/
def deviceData (l : List FritzhomeDevice) : List (String × FritzhomeDevice) :=
  l.foldl (fun m d => dictInsert m d.ain (applyAvailabilityCorrection d)) []

/-- The template map built by the poll loop. -/
def templateData (l : List FritzhomeTemplate) :
    List (String × FritzhomeTemplate) :=
  l.foldl (fun m t => dictInsert m t.ain t) []

/-- The snapshot pair a successful fetch produces; templates are only fetched
when the hub supports them. -/
def fetchSnapshot (b : FritzBehavior) (has_templates : Bool) :
    FritzboxCoordinatorData :=
  ⟨deviceData b.fetchedDevices,
   templateData (if has_templates then b.fetchedTemplates else [])⟩

/-- The tail of `_update_fritz_devices` after a successful fetch: build the
snapshot, record the newly seen ids, run the registry cleanup when a
previously known id disappeared, and store the new snapshot.  The storing
itself is modelled from the spec: the coordinator framework (not under src)
replaces the snapshot atomically on success. -/
def pollSuccess (b : FritzBehavior) (s : CoordinatorState) : StepResult :=
  let dat := fetchSnapshot b s.has_templates
  let newDevices :=
    (dictKeys dat.devices).toFinset \ (dictKeys s.data.devices).toFinset
  let newTemplates :=
    (dictKeys dat.templates).toFinset \ (dictKeys s.data.templates).toFinset
  let removedDevices :=
    (dictKeys s.data.devices).toFinset \ (dictKeys dat.devices).toFinset
  let removedTemplates :=
    (dictKeys s.data.templates).toFinset \ (dictKeys dat.templates).toFinset
  if removedDevices ≠ ∅ ∨ removedTemplates ≠ ∅ then
    let arg := dictKeys dat.devices ++ dictKeys dat.templates
    { outcome := .ok dat
      cleanupArg := some arg
      state :=
        { s with
          data := dat
          new_devices := newDevices
          new_templates := newTemplates
          registry := cleanup_removed_devices s.config_entry_id arg s.registry } }
  else
    { outcome := .ok dat
      cleanupArg := none
      state :=
        { s with
          data := dat
          new_devices := newDevices
          new_templates := newTemplates } }

/-- FritzboxDataUpdateCoordinator._update_fritz_devices, with the coordinator
framework's bookkeeping folded in: a raised exception leaves the stored
snapshot untouched (modelled from the spec; the framework is not under src). -/
def updateFritzDevices (b : FritzBehavior) (s : CoordinatorState) : StepResult :=
  match b.fetch1 with
  | some .connError => ⟨.updateFailed, none, s⟩
  | some .httpError =>
      if b.loginOk then
        match b.fetch2 with
        | some e => ⟨.uncaught e, none, s⟩
        | none => pollSuccess b s
      else ⟨.configEntryAuthFailed, none, s⟩
  | none => pollSuccess b s

end Fritzbox

namespace Lutron

/-- The attribute key for the button id.  Modelled from the spec: the
platform-wide constant ATTR_ID (homeassistant.const, not under src) holds the
string "id". -/
def ATTR_ID : String := "id"

/-- Attribute key for the action, defined in the lutron component. -/
def ATTR_ACTION : String := "action"

/-- Attribute key for the full id, defined in the lutron component. -/
def ATTR_FULL_ID : String := "full_id"

/-- Attribute key for the uuid, defined in the lutron component. -/
def ATTR_UUID : String := "uuid"

/-- The two button events pylutron delivers to the callback. -/
inductive ButtonEvent where
  | pressed
  | released
  deriving Repr, DecidableEq

/-- The LutronButton state that button_callback reads: whether the button type
includes RaiseLower (so it has a release event) and the precomputed id,
full id and uuid attributes. -/
structure LutronButton where
  has_release_event : Bool
  id : String
  full_id : String
  uuid : String
  deriving Repr, DecidableEq

/-- An event fired on the platform bus: its name and its data dictionary.
Modelled from the spec: hass.bus.fire (not under src) publishes exactly the
name and data it is given. -/
structure FiredEvent where
  name : String
  data : List (String × String)
  deriving Repr, DecidableEq

/-- LutronButton.button_callback: compute the action string (pressed/released
for RaiseLower buttons, single for a press on other buttons) and, when an
action was assigned, fire one lutron_event carrying id, action, full_id and
uuid; otherwise fire nothing. -/
def button_callback (btn : LutronButton) (event : ButtonEvent) :
    Option FiredEvent :=
  let action : Option String :=
    if btn.has_release_event then
      if event = .pressed then some "pressed" else some "released"
    else if event = .pressed then some "single"
    else none
  match action with
  | some a =>
      some ⟨"lutron_event",
        [(ATTR_ID, btn.id), (ATTR_ACTION, a), (ATTR_FULL_ID, btn.full_id),
         (ATTR_UUID, btn.uuid)]⟩
  | none => none

/-- The HVAC modes of the climate platform that the lutron mapping targets. -/
inductive HVACMode where
  | off
  | heat
  | cool
  | auto
  | fan_only
  | dry
  deriving Repr, DecidableEq

/-- The LUTRON_TO_HVAC_MODES dictionary as a lookup function. -/
def LUTRON_TO_HVAC_MODES (s : String) : Option HVACMode :=
  if s = "OFF" then some .off
  else if s = "HEAT" then some .heat
  else if s = "COOL" then some .cool
  else if s = "AUTO" then some .auto
  else if s = "LOCKED" then some .off
  else if s = "FAN" then some .fan_only
  else if s = "DRY" then some .dry
  else none

/-- The HVAC device state that async_set_temperature reads and writes: the
last reported mode string and the heat and cool setpoints in Fahrenheit. -/
structure HVACDevice where
  last_mode : String
  setpoint_heat_f : ℚ
  setpoint_cool_f : ℚ
  deriving Repr, DecidableEq

/-- The hvac_mode property: the last reported mode string looked up in
LUTRON_TO_HVAC_MODES. -/
def hvac_mode (d : HVACDevice) : Option HVACMode :=
  LUTRON_TO_HVAC_MODES d.last_mode

/-- Python round() on a rational: nearest integer, ties to the even one.  The
floor is computed as floor division of numerator by denominator. -/
def pyRound (q : ℚ) : ℤ :=
  let f : ℤ := q.num.fdiv q.den
  if q - f < 1 / 2 then f
  else if 1 / 2 < q - f then f + 1
  else if f % 2 = 0 then f else f + 1

/-- LutronClimate.async_set_temperature: without a temperature argument raise
ValueError; in COOL mode write the rounded target to the cool setpoint, first
pushing the heat setpoint down to exactly three degrees below it when the
separation would be smaller; in HEAT mode symmetrically; in any other mode
leave both setpoints alone. -/
def async_set_temperature (temp : Option ℚ) (d : HVACDevice) :
    Except String HVACDevice :=
  match temp with
  | none => .error "Missing parameter temperature"
  | some temperature =>
      .ok <|
        if hvac_mode d = some .cool then
          let r : ℚ := (pyRound temperature : ℤ)
          let d1 :=
            if r - d.setpoint_heat_f < 3 then
              { d with setpoint_heat_f := r - 3 }
            else d
          { d1 with setpoint_cool_f := r }
        else if hvac_mode d = some .heat then
          let r : ℚ := (pyRound temperature : ℤ)
          let d1 :=
            if d.setpoint_cool_f - r < 3 then
              { d with setpoint_cool_f := r + 3 }
            else d
          { d1 with setpoint_heat_f := r }
        else d

end Lutron

namespace Fritzbox

/-- A sample device showing the zero-reading quirk. -/
def sampleQuirkDevice : FritzhomeDevice :=
  ⟨"ain1", "plug", true, true, some 0, some 0, 0⟩

/-- A sample healthy device. -/
def sampleHealthyDevice : FritzhomeDevice :=
  ⟨"ain2", "plug2", true, true, some 230, some 5, 12⟩

/-- A sample previous snapshot holding one device key that later disappears. -/
def sampleOldData : FritzboxCoordinatorData :=
  ⟨[("old1", sampleHealthyDevice)], []⟩

/-- A sample registry with entries for two ains. -/
def sampleRegistry : Registry :=
  ⟨[⟨"switch.a", "ain1_switch", "entry1"⟩, ⟨"switch.b", "old1_switch", "entry1"⟩],
   [⟨"dev1", [("fritzbox", "ain1")], ["entry1"]⟩,
    ⟨"dev2", [("fritzbox", "old1")], ["entry1", "other"]⟩]⟩

/-- A sample coordinator state before a poll. -/
def sampleState : CoordinatorState :=
  ⟨"entry1", false, sampleOldData, ∅, ∅, sampleRegistry⟩

/-- A sample behavior: the fetch succeeds at once. -/
def sampleBehaviorOk : FritzBehavior :=
  ⟨none, true, none, [sampleQuirkDevice], []⟩

/-- A sample behavior: the fetch hits a connection error. -/
def sampleBehaviorConn : FritzBehavior :=
  ⟨some .connError, true, none, [sampleQuirkDevice], []⟩

/-- A sample behavior: an HTTP error, then a successful re-login and retry. -/
def sampleBehaviorHttpOk : FritzBehavior :=
  ⟨some .httpError, true, none, [sampleQuirkDevice], []⟩

/-- A sample behavior: an HTTP error, then a failing re-login. -/
def sampleBehaviorHttpBadLogin : FritzBehavior :=
  ⟨some .httpError, false, none, [], []⟩

end Fritzbox

namespace Fritzbox

lemma pollSuccess_outcome (b : FritzBehavior) (s : CoordinatorState) :
    (pollSuccess b s).outcome = .ok (fetchSnapshot b s.has_templates) := by
  unfold pollSuccess
  dsimp only
  split <;> rfl

lemma pollSuccess_state_data (b : FritzBehavior) (s : CoordinatorState) :
    (pollSuccess b s).state.data = fetchSnapshot b s.has_templates := by
  unfold pollSuccess
  dsimp only
  split <;> rfl

lemma pollSuccess_cleanupArg (b : FritzBehavior) (s : CoordinatorState) :
    (pollSuccess b s).cleanupArg =
      if ((dictKeys s.data.devices).toFinset \
            (dictKeys (fetchSnapshot b s.has_templates).devices).toFinset ≠ ∅ ∨
          (dictKeys s.data.templates).toFinset \
            (dictKeys (fetchSnapshot b s.has_templates).templates).toFinset ≠ ∅) then
        some (dictKeys (fetchSnapshot b s.has_templates).devices ++
          dictKeys (fetchSnapshot b s.has_templates).templates)
      else none := by
  unfold pollSuccess
  dsimp only
  split <;> rfl

lemma updateFritzDevices_ok_iff (b : FritzBehavior) (s : CoordinatorState)
    (dat : FritzboxCoordinatorData) :
    (updateFritzDevices b s).outcome = .ok dat ↔
      dat = fetchSnapshot b s.has_templates ∧
        (b.fetch1 = none ∨
          (b.fetch1 = some .httpError ∧ b.loginOk = true ∧ b.fetch2 = none)) := by
  cases hb : b.fetch1 with
  | none =>
      have hrun : updateFritzDevices b s = pollSuccess b s := by
        simp only [updateFritzDevices, hb]
      rw [hrun, pollSuccess_outcome]
      constructor
      · intro h
        injection h with h2
        exact ⟨h2.symm, Or.inl rfl⟩
      · rintro ⟨rfl, -⟩
        rfl
  | some e =>
      cases e with
      | connError => simp [updateFritzDevices, hb]
      | httpError =>
          cases hl : b.loginOk with
          | false => simp [updateFritzDevices, hb, hl]
          | true =>
              cases hf : b.fetch2 with
              | some e2 => simp [updateFritzDevices, hb, hl, hf]
              | none =>
                  have hrun : updateFritzDevices b s = pollSuccess b s := by
                    simp only [updateFritzDevices, hb, hl, hf, if_true]
                  rw [hrun, pollSuccess_outcome]
                  constructor
                  · intro h
                    injection h with h2
                    exact ⟨h2.symm, Or.inr ⟨rfl, rfl, rfl⟩⟩
                  · rintro ⟨rfl, -⟩
                    rfl

lemma updateFritzDevices_ok_run (b : FritzBehavior) (s : CoordinatorState)
    (dat : FritzboxCoordinatorData)
    (h : (updateFritzDevices b s).outcome = .ok dat) :
    updateFritzDevices b s = pollSuccess b s := by
  rcases (updateFritzDevices_ok_iff b s dat).1 h with ⟨-, hpath⟩
  rcases hpath with h1 | ⟨h1, h2, h3⟩
  · simp [updateFritzDevices, h1]
  · simp [updateFritzDevices, h1, h2, h3]

lemma find?_overwrite {α : Type} (k : String) (v : α) (m : List (String × α))
    (h : m.any (fun p => p.1 == k) = true) :
    (m.map (fun p => if p.1 == k then (k, v) else p)).find? (fun p => p.1 == k) =
      some (k, v) := by
  induction m with
  | nil => simp at h
  | cons p m ih =>
      cases hp : (p.1 == k) with
      | true =>
          rw [List.map_cons, if_pos hp, List.find?_cons_of_pos _ (by simp)]
      | false =>
          have h2 : m.any (fun q => q.1 == k) = true := by
            simpa [List.any_cons, hp] using h
          rw [List.map_cons, if_neg (by simp [hp]),
            List.find?_cons_of_neg _ (by simp [hp])]
          exact ih h2

lemma find?_overwrite_other {α : Type} (k k₀ : String) (v : α) (hne : k₀ ≠ k)
    (m : List (String × α)) :
    (m.map (fun p => if p.1 == k then (k, v) else p)).find? (fun p => p.1 == k₀) =
      m.find? (fun p => p.1 == k₀) := by
  induction m with
  | nil => rfl
  | cons p m ih =>
      cases hp : (p.1 == k) with
      | false =>
          cases hq : (p.1 == k₀) with
          | true =>
              rw [List.map_cons, if_neg (by simp [hp]),
                List.find?_cons_of_pos _ (by simp [hq]),
                List.find?_cons_of_pos _ (by simp [hq])]
          | false =>
              rw [List.map_cons, if_neg (by simp [hp]),
                List.find?_cons_of_neg _ (by simp [hq]),
                List.find?_cons_of_neg _ (by simp [hq])]
              exact ih
      | true =>
          have hp1 : p.1 = k := eq_of_beq hp
          have hkk : (k == k₀) = false := by
            simp only [beq_eq_false_iff_ne, ne_eq]
            exact fun hkk => hne hkk.symm
          have hq : (p.1 == k₀) = false := by rw [hp1]; exact hkk
          rw [List.map_cons, if_pos hp,
            List.find?_cons_of_neg _ (by simp [hkk]),
            List.find?_cons_of_neg _ (by simp [hq])]
          exact ih

lemma dictGet_dictInsert_self {α : Type} (m : List (String × α)) (k : String)
    (v : α) : dictGet (dictInsert m k v) k = some v := by
  by_cases h : m.any (fun p => p.1 == k) = true
  · simp only [dictGet, dictInsert, if_pos h, find?_overwrite k v m h,
      Option.map_some']
  · have hnone : m.find? (fun p => p.1 == k) = none := by
      rw [List.find?_eq_none]
      intro x hx hpx
      exact h (List.any_eq_true.mpr ⟨x, hx, hpx⟩)
    simp [dictGet, dictInsert, if_neg h, List.find?_append, hnone]

lemma dictGet_dictInsert_ne {α : Type} (m : List (String × α)) (k k₀ : String)
    (v : α) (hne : k₀ ≠ k) : dictGet (dictInsert m k v) k₀ = dictGet m k₀ := by
  have hk : (k == k₀) = false := by
    simp only [beq_eq_false_iff_ne, ne_eq]
    exact fun hkk => hne hkk.symm
  by_cases h : m.any (fun p => p.1 == k) = true
  · simp only [dictGet, dictInsert, if_pos h, find?_overwrite_other k k₀ v hne m]
  · simp [dictGet, dictInsert, if_neg h, List.find?_append, hk, Option.or_none]

lemma dictGet_foldl_not_mem {α β : Type} (f : α → String) (g : α → β)
    (l : List α) (k : String) (h : k ∉ l.map f) :
    ∀ m0 : List (String × β),
      dictGet (l.foldl (fun m y => dictInsert m (f y) (g y)) m0) k = dictGet m0 k := by
  induction l with
  | nil => intro m0; rfl
  | cons y l ih =>
      intro m0
      have hky : k ≠ f y := by
        intro hk
        exact h (by simp [hk])
      have hl : k ∉ l.map f := by
        intro hk
        exact h (by simp [hk])
      rw [List.foldl_cons, ih hl, dictGet_dictInsert_ne m0 (f y) k (g y) hky]

lemma dictGet_foldl_of_mem {α β : Type} (f : α → String) (g : α → β)
    (l : List α) (x : α) (hx : x ∈ l) (hnd : (l.map f).Nodup) :
    ∀ m0 : List (String × β),
      dictGet (l.foldl (fun m y => dictInsert m (f y) (g y)) m0) (f x) =
        some (g x) := by
  induction l with
  | nil => simp at hx
  | cons y l ih =>
      intro m0
      rw [List.map_cons, List.nodup_cons] at hnd
      rcases List.mem_cons.mp hx with rfl | hx2
      · rw [List.foldl_cons, dictGet_foldl_not_mem f g l (f x) hnd.1,
          dictGet_dictInsert_self]
      · rw [List.foldl_cons]
        exact ih hx2 hnd.2 (dictInsert m0 (f y) (g y))

lemma dictKeys_dictInsert_toFinset {α : Type} (m : List (String × α))
    (k : String) (v : α) :
    (dictKeys (dictInsert m k v)).toFinset = insert k (dictKeys m).toFinset := by
  by_cases h : m.any (fun p => p.1 == k) = true
  · have hkeys :
        (m.map (fun p => if p.1 == k then (k, v) else p)).map (fun p => p.1) =
          m.map (fun p => p.1) := by
      rw [List.map_map]
      apply List.map_congr_left
      intro p hp
      by_cases hpk : (p.1 == k) = true
      · simp only [Function.comp_apply, if_pos hpk]
        exact (eq_of_beq hpk).symm
      · simp only [Function.comp_apply, if_neg hpk]
    have hk : k ∈ (m.map (fun p => p.1)).toFinset := by
      rcases List.any_eq_true.mp h with ⟨p, hpm, hpk⟩
      rw [List.mem_toFinset]
      exact List.mem_map.mpr ⟨p, hpm, eq_of_beq hpk⟩
    rw [dictKeys, dictInsert, if_pos h, hkeys, dictKeys,
      Finset.insert_eq_self.mpr hk]
  · rw [dictKeys, dictInsert, if_neg h, List.map_append, List.toFinset_append,
      dictKeys]
    simp [Finset.insert_eq, Finset.union_comm]

lemma dictKeys_foldl_toFinset {α β : Type} (f : α → String) (g : α → β)
    (l : List α) :
    ∀ m0 : List (String × β),
      (dictKeys (l.foldl (fun m y => dictInsert m (f y) (g y)) m0)).toFinset =
        (dictKeys m0).toFinset ∪ (l.map f).toFinset := by
  induction l with
  | nil => intro m0; simp
  | cons y l ih =>
      intro m0
      rw [List.foldl_cons, ih (dictInsert m0 (f y) (g y)),
        dictKeys_dictInsert_toFinset]
      simp [Finset.insert_union, Finset.union_insert]

lemma deviceData_keys (l : List FritzhomeDevice) :
    (dictKeys (deviceData l)).toFinset = (l.map (fun d => d.ain)).toFinset := by
  have h := dictKeys_foldl_toFinset (fun d => d.ain) applyAvailabilityCorrection l []
  simpa [dictKeys] using h

lemma templateData_keys (l : List FritzhomeTemplate) :
    (dictKeys (templateData l)).toFinset = (l.map (fun t => t.ain)).toFinset := by
  have h := dictKeys_foldl_toFinset (fun t : FritzhomeTemplate => t.ain)
    (fun t => t) l []
  simpa [dictKeys] using h

lemma dictGet_deviceData (l : List FritzhomeDevice) (d : FritzhomeDevice)
    (hd : d ∈ l) (hnd : (l.map (fun x => x.ain)).Nodup) :
    dictGet (deviceData l) d.ain = some (applyAvailabilityCorrection d) := by
  show dictGet (l.foldl
      (fun m x => dictInsert m x.ain (applyAvailabilityCorrection x)) []) d.ain =
    some (applyAvailabilityCorrection d)
  exact dictGet_foldl_of_mem (fun x => x.ain) applyAvailabilityCorrection l d
    hd hnd []

lemma nonposInt_iff (o : Option Int) :
    nonposInt o = true ↔ ∃ v, o = some v ∧ v ≤ 0 := by
  cases o <;> simp [nonposInt]

lemma applyAvailabilityCorrection_cases (d : FritzhomeDevice) :
    ((d.has_powermeter = true ∧ d.present = true ∧
        (∃ v, d.voltage = some v ∧ v ≤ 0) ∧ (∃ p, d.power = some p ∧ p ≤ 0) ∧
        d.energy ≤ 0) →
      applyAvailabilityCorrection d = { d with present := false }) ∧
    (¬(d.has_powermeter = true ∧ d.present = true ∧
        (∃ v, d.voltage = some v ∧ v ≤ 0) ∧ (∃ p, d.power = some p ∧ p ≤ 0) ∧
        d.energy ≤ 0) →
      applyAvailabilityCorrection d = d) := by
  by_cases h : (d.has_powermeter && d.present && nonposInt d.voltage &&
      nonposInt d.power && decide (d.energy ≤ 0)) = true
  · refine ⟨fun _ => ?_, fun hc => absurd ?_ hc⟩
    · rw [applyAvailabilityCorrection, if_pos h]
    · simp only [Bool.and_eq_true, decide_eq_true_eq, nonposInt_iff] at h
      exact ⟨h.1.1.1.1, h.1.1.1.2, h.1.1.2, h.1.2, h.2⟩
  · refine ⟨fun hc => absurd ?_ h, fun _ => ?_⟩
    · simp only [Bool.and_eq_true, decide_eq_true_eq, nonposInt_iff]
      exact ⟨⟨⟨⟨hc.1, hc.2.1⟩, hc.2.2.1⟩, hc.2.2.2.1⟩, hc.2.2.2.2⟩
    · rw [applyAvailabilityCorrection, if_neg h]

/-- C1: after a successful poll cycle, a fetched device that reports a power
meter, is marked present, and has non-positive (int) voltage and power and
non-positive energy is stored with present forced to false; any fetched device
not satisfying all of these conditions together is stored unchanged, so its
present flag is untouched by the correction. -/
theorem poll_assumes_quirky_device_unavailable (b : FritzBehavior)
    (s : CoordinatorState) (dat : FritzboxCoordinatorData) (d : FritzhomeDevice)
    (hok : (updateFritzDevices b s).outcome = .ok dat)
    (hmem : d ∈ b.fetchedDevices)
    (hnd : (b.fetchedDevices.map (fun x => x.ain)).Nodup) :
    ((d.has_powermeter = true ∧ d.present = true ∧
        (∃ v, d.voltage = some v ∧ v ≤ 0) ∧ (∃ p, d.power = some p ∧ p ≤ 0) ∧
        d.energy ≤ 0) →
      dictGet dat.devices d.ain = some { d with present := false }) ∧
    (¬(d.has_powermeter = true ∧ d.present = true ∧
        (∃ v, d.voltage = some v ∧ v ≤ 0) ∧ (∃ p, d.power = some p ∧ p ≤ 0) ∧
        d.energy ≤ 0) →
      dictGet dat.devices d.ain = some d) := by
  have hdat : dat = fetchSnapshot b s.has_templates :=
    ((updateFritzDevices_ok_iff b s dat).1 hok).1
  subst hdat
  have hget : dictGet (fetchSnapshot b s.has_templates).devices d.ain =
      some (applyAvailabilityCorrection d) :=
    dictGet_deviceData b.fetchedDevices d hmem hnd
  rcases applyAvailabilityCorrection_cases d with ⟨hyes, hno⟩
  constructor
  · intro hc
    rw [hyes hc] at hget
    exact hget
  · intro hc
    rw [hno hc] at hget
    exact hget

/-- Witness for C1 at a concrete poll cycle and device. -/
theorem poll_assumes_quirky_device_unavailable_witness :
    (updateFritzDevices sampleBehaviorOk sampleState).outcome =
        .ok (fetchSnapshot sampleBehaviorOk sampleState.has_templates) ∧
      dictGet (fetchSnapshot sampleBehaviorOk sampleState.has_templates).devices
          sampleQuirkDevice.ain = some { sampleQuirkDevice with present := false } := by
  have hok : (updateFritzDevices sampleBehaviorOk sampleState).outcome =
      .ok (fetchSnapshot sampleBehaviorOk sampleState.has_templates) := by decide
  refine ⟨hok, ?_⟩
  exact (poll_assumes_quirky_device_unavailable sampleBehaviorOk sampleState
      (fetchSnapshot sampleBehaviorOk sampleState.has_templates) sampleQuirkDevice
      hok (by decide) (by decide)).1
    ⟨rfl, rfl, ⟨0, rfl, le_refl 0⟩, ⟨0, rfl, le_refl 0⟩, le_refl 0⟩

/-- C3: a connection error during the fetch makes the poll cycle end in the
retryable UpdateFailed outcome and leaves the coordinator's stored snapshot,
both the device map and the template map, exactly as it was. -/
theorem connection_error_preserves_snapshot (b : FritzBehavior)
    (s : CoordinatorState) (h : b.fetch1 = some .connError) :
    (updateFritzDevices b s).outcome = .updateFailed ∧
      (updateFritzDevices b s).state.data.devices = s.data.devices ∧
      (updateFritzDevices b s).state.data.templates = s.data.templates := by
  simp [updateFritzDevices, h]

/-- Witness for C3 at a concrete behavior and state. -/
theorem connection_error_preserves_snapshot_witness :
    (updateFritzDevices sampleBehaviorConn sampleState).outcome = .updateFailed ∧
      (updateFritzDevices sampleBehaviorConn sampleState).state.data.devices =
        sampleState.data.devices ∧
      (updateFritzDevices sampleBehaviorConn sampleState).state.data.templates =
        sampleState.data.templates :=
  connection_error_preserves_snapshot sampleBehaviorConn sampleState rfl

/-- C4: an HTTP error followed by a successful re-login and retry ends the
cycle with the freshly fetched snapshot pair stored, and raises neither the
retryable UpdateFailed nor the fatal ConfigEntryAuthFailed outcome. -/
theorem http_error_relogin_retry_ok (b : FritzBehavior) (s : CoordinatorState)
    (h1 : b.fetch1 = some .httpError) (h2 : b.loginOk = true)
    (h3 : b.fetch2 = none) :
    (updateFritzDevices b s).outcome = .ok (fetchSnapshot b s.has_templates) ∧
      (updateFritzDevices b s).state.data = fetchSnapshot b s.has_templates ∧
      (updateFritzDevices b s).outcome ≠ .updateFailed ∧
      (updateFritzDevices b s).outcome ≠ .configEntryAuthFailed := by
  simp [updateFritzDevices, h1, h2, h3, pollSuccess_outcome, pollSuccess_state_data]

/-- Witness for C4 at a concrete behavior and state. -/
theorem http_error_relogin_retry_ok_witness :
    (updateFritzDevices sampleBehaviorHttpOk sampleState).outcome =
        .ok (fetchSnapshot sampleBehaviorHttpOk sampleState.has_templates) ∧
      (updateFritzDevices sampleBehaviorHttpOk sampleState).state.data =
        fetchSnapshot sampleBehaviorHttpOk sampleState.has_templates ∧
      (updateFritzDevices sampleBehaviorHttpOk sampleState).outcome ≠ .updateFailed ∧
      (updateFritzDevices sampleBehaviorHttpOk sampleState).outcome ≠
        .configEntryAuthFailed :=
  http_error_relogin_retry_ok sampleBehaviorHttpOk sampleState rfl rfl rfl

/-- C5: an HTTP error followed by a failing re-login ends the cycle in the
fatal ConfigEntryAuthFailed outcome, with the stored snapshot unchanged. -/
theorem http_error_login_failure_auth (b : FritzBehavior) (s : CoordinatorState)
    (h1 : b.fetch1 = some .httpError) (h2 : b.loginOk = false) :
    (updateFritzDevices b s).outcome = .configEntryAuthFailed ∧
      (updateFritzDevices b s).state.data = s.data := by
  simp [updateFritzDevices, h1, h2]

/-- Witness for C5 at a concrete behavior and state. -/
theorem http_error_login_failure_auth_witness :
    (updateFritzDevices sampleBehaviorHttpBadLogin sampleState).outcome =
        .configEntryAuthFailed ∧
      (updateFritzDevices sampleBehaviorHttpBadLogin sampleState).state.data =
        sampleState.data :=
  http_error_login_failure_auth sampleBehaviorHttpBadLogin sampleState rfl rfl

lemma sdiff_ne_empty_iff (l1 l2 : List String) :
    l1.toFinset \ l2.toFinset ≠ ∅ ↔ ∃ k, k ∈ l1 ∧ k ∉ l2 := by
  rw [Ne, Finset.eq_empty_iff_forall_not_mem]
  push_neg
  simp [Finset.mem_sdiff, List.mem_toFinset]

/-- C6: after a successful poll cycle, the key set of the stored device map is
exactly the set of ains of the devices the hub reported on that poll, the key
set of the stored template map is exactly the set of ains of the reported
templates (empty when templates are unsupported), and the stored snapshot pair
is the freshly fetched one, computed wholesale from this fetch alone rather
than merged with the previous snapshot. -/
theorem snapshot_keys_match_reported (b : FritzBehavior) (s : CoordinatorState)
    (dat : FritzboxCoordinatorData)
    (h : (updateFritzDevices b s).outcome = .ok dat) :
    (dictKeys dat.devices).toFinset = (b.fetchedDevices.map (fun d => d.ain)).toFinset ∧
    (dictKeys dat.templates).toFinset =
      ((if s.has_templates then b.fetchedTemplates else []).map (fun t => t.ain)).toFinset ∧
    dat = fetchSnapshot b s.has_templates ∧
    (updateFritzDevices b s).state.data = fetchSnapshot b s.has_templates := by
  have hdat : dat = fetchSnapshot b s.has_templates :=
    ((updateFritzDevices_ok_iff b s dat).1 h).1
  subst hdat
  refine ⟨deviceData_keys _, templateData_keys _, rfl, ?_⟩
  rw [updateFritzDevices_ok_run b s _ h, pollSuccess_state_data]

/-- Witness for C6 at a concrete poll cycle. -/
theorem snapshot_keys_match_reported_witness :
    (updateFritzDevices sampleBehaviorOk sampleState).outcome =
        .ok (fetchSnapshot sampleBehaviorOk sampleState.has_templates) ∧
      (dictKeys (fetchSnapshot sampleBehaviorOk sampleState.has_templates).devices).toFinset =
        (sampleBehaviorOk.fetchedDevices.map (fun d => d.ain)).toFinset := by
  have hok : (updateFritzDevices sampleBehaviorOk sampleState).outcome =
      .ok (fetchSnapshot sampleBehaviorOk sampleState.has_templates) := by decide
  exact ⟨hok, (snapshot_keys_match_reported sampleBehaviorOk sampleState
    (fetchSnapshot sampleBehaviorOk sampleState.has_templates) hok).1⟩

/-- C8: in a successful poll cycle, cleanup_removed_devices is invoked exactly
when some device or template id of the previous snapshot is absent from the
new snapshot, and whenever it is invoked it receives the full list of current
device and template ids (device keys followed by template keys). -/
theorem cleanup_invoked_iff_removed (b : FritzBehavior) (s : CoordinatorState)
    (dat : FritzboxCoordinatorData)
    (h : (updateFritzDevices b s).outcome = .ok dat) :
    ((updateFritzDevices b s).cleanupArg ≠ none ↔
        (∃ k, k ∈ dictKeys s.data.devices ∧ k ∉ dictKeys dat.devices) ∨
        (∃ k, k ∈ dictKeys s.data.templates ∧ k ∉ dictKeys dat.templates)) ∧
    ((updateFritzDevices b s).cleanupArg = none ∨
      (updateFritzDevices b s).cleanupArg =
        some (dictKeys dat.devices ++ dictKeys dat.templates)) := by
  have hdat : dat = fetchSnapshot b s.has_templates :=
    ((updateFritzDevices_ok_iff b s dat).1 h).1
  subst hdat
  rw [updateFritzDevices_ok_run b s _ h, pollSuccess_cleanupArg]
  by_cases hc :
      (dictKeys s.data.devices).toFinset \
          (dictKeys (fetchSnapshot b s.has_templates).devices).toFinset ≠ ∅ ∨
        (dictKeys s.data.templates).toFinset \
          (dictKeys (fetchSnapshot b s.has_templates).templates).toFinset ≠ ∅
  · rw [if_pos hc]
    refine ⟨iff_of_true (by simp) ?_, Or.inr rfl⟩
    rcases hc with hc | hc
    · exact Or.inl ((sdiff_ne_empty_iff _ _).1 hc)
    · exact Or.inr ((sdiff_ne_empty_iff _ _).1 hc)
  · rw [if_neg hc]
    push_neg at hc
    refine ⟨iff_of_false (by simp) ?_, Or.inl rfl⟩
    rintro (hex | hex)
    · exact ((sdiff_ne_empty_iff _ _).2 hex) hc.1
    · exact ((sdiff_ne_empty_iff _ _).2 hex) hc.2

lemma foldl_removeEntity_eq_filter (keep : EntityEntry → Bool) :
    ∀ L es : List EntityEntry,
      L.foldl (fun acc ent =>
          if keep ent then acc else removeEntity acc ent.entity_id) es =
        es.filter (fun e =>
          !(L.any (fun ent => !(keep ent) && e.entity_id == ent.entity_id))) := by
  intro L
  induction L with
  | nil => intro es; simp
  | cons a L ih =>
      intro es
      rw [List.foldl_cons]
      by_cases h : keep a = true
      · rw [if_pos h, ih]
        apply List.filter_congr
        intro e _
        simp [h]
      · have hka : keep a = false := Bool.not_eq_true (keep a) |>.mp h
        rw [if_neg h, ih, removeEntity, List.filter_filter]
        apply List.filter_congr
        intro e _
        cases hbe : (e.entity_id == a.entity_id) <;> simp [hka, hbe]

@[simp] lemma detachDevice_id (entry_id : String) (d : DeviceEntry) :
    (detachDevice entry_id d).id = d.id := rfl

lemma detachDevice_idem (entry_id : String) (d : DeviceEntry) :
    detachDevice entry_id (detachDevice entry_id d) = detachDevice entry_id d := by
  simp [detachDevice, List.filter_filter]

lemma foldl_updateDevice_eq_map (keep : DeviceEntry → Bool) (entry_id : String) :
    ∀ L ds : List DeviceEntry,
      L.foldl (fun acc dev =>
          if keep dev then acc
          else updateDeviceRemoveEntry acc dev.id entry_id) ds =
        ds.map (fun d =>
          if L.any (fun dev => !(keep dev) && d.id == dev.id) then
            detachDevice entry_id d
          else d) := by
  intro L
  induction L with
  | nil => intro ds; simp
  | cons a L ih =>
      intro ds
      rw [List.foldl_cons]
      by_cases h : keep a = true
      · rw [if_pos h, ih]
        apply List.map_congr_left
        intro d _
        simp [h]
      · have hka : keep a = false := Bool.not_eq_true (keep a) |>.mp h
        rw [if_neg h, ih, updateDeviceRemoveEntry, List.map_map]
        apply List.map_congr_left
        intro d _
        simp only [Function.comp_apply]
        by_cases hid : (d.id == a.id) = true
        · rw [if_pos hid]
          cases hany : L.any (fun dev => !(keep dev) && d.id == dev.id) with
          | false => simp [hka, hid, hany]
          | true => simp [hka, hid, hany, detachDevice_idem]
        · have hid2 : (d.id == a.id) = false := Bool.not_eq_true (d.id == a.id) |>.mp hid
          rw [if_neg hid]
          simp [hka, hid2]

lemma cleanup_removed_devices_spec (entry_id : String) (ains : List String)
    (reg : Registry)
    (hE : (reg.entities.map (fun e => e.entity_id)).Nodup)
    (hD : (reg.devices.map (fun d => d.id)).Nodup) :
    (cleanup_removed_devices entry_id ains reg).entities =
      reg.entities.filter (fun e =>
        !((e.config_entry_id == entry_id) &&
          !(ains.contains (uniqueIdHead e.unique_id)))) ∧
    (cleanup_removed_devices entry_id ains reg).devices =
      reg.devices.map (fun d =>
        if (d.config_entry_ids.contains entry_id) &&
            !(d.identifiers.any (fun i =>
              (ains.map (fun ain => (DOMAIN, ain))).contains i)) then
          detachDevice entry_id d
        else d) := by
  constructor
  · have hent : (cleanup_removed_devices entry_id ains reg).entities =
        (entityEntriesFor reg.entities entry_id).foldl
          (fun acc ent =>
            if ains.contains (uniqueIdHead ent.unique_id) then acc
            else removeEntity acc ent.entity_id) reg.entities := rfl
    rw [hent, foldl_removeEntity_eq_filter]
    apply List.filter_congr
    intro e he
    have hcond : ((entityEntriesFor reg.entities entry_id).any
        (fun ent => !(ains.contains (uniqueIdHead ent.unique_id)) &&
          e.entity_id == ent.entity_id)) =
        ((e.config_entry_id == entry_id) &&
          !(ains.contains (uniqueIdHead e.unique_id))) := by
      rw [Bool.eq_iff_iff]
      constructor
      · intro hany
        rcases List.any_eq_true.mp hany with ⟨ent, hmem, hc2⟩
        rw [Bool.and_eq_true] at hc2
        rcases hc2 with ⟨hkeep, hbeq⟩
        have hid : e.entity_id = ent.entity_id := eq_of_beq hbeq
        have hmem2 : ent ∈ reg.entities := (List.mem_filter.mp hmem).1
        have heq : e = ent :=
          List.inj_on_of_nodup_map hE he hmem2 hid
        subst heq
        have hcfg : (e.config_entry_id == entry_id) = true :=
          (List.mem_filter.mp hmem).2
        rw [Bool.and_eq_true]
        exact ⟨hcfg, hkeep⟩
      · intro hc
        rw [Bool.and_eq_true] at hc
        rcases hc with ⟨hcfg, hkeep⟩
        apply List.any_eq_true.mpr
        refine ⟨e, List.mem_filter.mpr ⟨he, hcfg⟩, ?_⟩
        rw [Bool.and_eq_true]
        exact ⟨hkeep, by simp⟩
    rw [hcond]
  · have hdev : (cleanup_removed_devices entry_id ains reg).devices =
        (deviceEntriesFor reg.devices entry_id).foldl
          (fun acc dev =>
            if dev.identifiers.any (fun i =>
                (ains.map (fun ain => (DOMAIN, ain))).contains i) then acc
            else updateDeviceRemoveEntry acc dev.id entry_id) reg.devices := rfl
    rw [hdev, foldl_updateDevice_eq_map]
    apply List.map_congr_left
    intro d hd
    have hcond : ((deviceEntriesFor reg.devices entry_id).any
        (fun dev => !(dev.identifiers.any (fun i =>
          (ains.map (fun ain => (DOMAIN, ain))).contains i)) && d.id == dev.id)) =
        ((d.config_entry_ids.contains entry_id) &&
          !(d.identifiers.any (fun i =>
            (ains.map (fun ain => (DOMAIN, ain))).contains i))) := by
      rw [Bool.eq_iff_iff]
      constructor
      · intro hany
        rcases List.any_eq_true.mp hany with ⟨dev, hmem, hc2⟩
        rw [Bool.and_eq_true] at hc2
        rcases hc2 with ⟨hkeep, hbeq⟩
        have hid : d.id = dev.id := eq_of_beq hbeq
        have hmem2 : dev ∈ reg.devices := (List.mem_filter.mp hmem).1
        have heq : d = dev :=
          List.inj_on_of_nodup_map hD hd hmem2 hid
        subst heq
        have hcfg : (d.config_entry_ids.contains entry_id) = true :=
          (List.mem_filter.mp hmem).2
        rw [Bool.and_eq_true]
        exact ⟨hcfg, hkeep⟩
      · intro hc
        rw [Bool.and_eq_true] at hc
        rcases hc with ⟨hcfg, hkeep⟩
        apply List.any_eq_true.mpr
        refine ⟨d, List.mem_filter.mpr ⟨hd, hcfg⟩, ?_⟩
        rw [Bool.and_eq_true]
        exact ⟨hkeep, by simp⟩
    rw [hcond]

lemma contains_filter_ne (l : List String) (x : String) :
    (l.filter (fun c => !(c == x))).contains x = false := by
  simp [List.contains]

/-- C2 counterexample: with valid list ["a"], cleanup_removed_devices removes
an entity entry of this config entry whose unique id "ab_c" does start with
the currently valid address "a" (witnessed by "ab_c" = "a" ++ "b_c"),
contradicting the claim that exactly the entries whose unique id does not
start with a valid address are removed. -/
theorem cleanup_removes_starting_entity_counterexample :
    (cleanup_removed_devices "entry1" ["a"]
        ⟨[⟨"light.x", "ab_c", "entry1"⟩], []⟩).entities = [] ∧
      "ab_c" = "a" ++ "b_c" := by
  constructor
  · decide
  · decide

/-- C2 (amended): cleanup_removed_devices removes exactly those entity entries
of this config entry whose unique id's first underscore-separated segment is
not a currently valid address (rather than those whose unique id does not
start with a valid address), and rewrites exactly those device entries of this
config entry whose identifier set has no overlap with the set of (domain, ain)
pairs for valid addresses, detaching them from this config entry while keeping
the record; every other entity and device record is left untouched.  Stated
for registries whose entity ids and device ids are unique, as the platform
registries guarantee. -/
theorem cleanup_removes_exactly (entry_id : String) (ains : List String)
    (reg : Registry)
    (hE : (reg.entities.map (fun e => e.entity_id)).Nodup)
    (hD : (reg.devices.map (fun d => d.id)).Nodup) :
    (cleanup_removed_devices entry_id ains reg).entities =
      reg.entities.filter (fun e =>
        !((e.config_entry_id == entry_id) &&
          !(ains.contains (uniqueIdHead e.unique_id)))) ∧
    (cleanup_removed_devices entry_id ains reg).devices =
      reg.devices.map (fun d =>
        if (d.config_entry_ids.contains entry_id) &&
            !(d.identifiers.any (fun i =>
              (ains.map (fun ain => (DOMAIN, ain))).contains i)) then
          detachDevice entry_id d
        else d) :=
  cleanup_removed_devices_spec entry_id ains reg hE hD

/-- Witness for C2 (amended) at a concrete registry and id list. -/
theorem cleanup_removes_exactly_witness :
    (sampleRegistry.entities.map (fun e => e.entity_id)).Nodup ∧
      (cleanup_removed_devices "entry1" ["ain1"] sampleRegistry).entities =
        sampleRegistry.entities.filter (fun e =>
          !((e.config_entry_id == "entry1") &&
            !((["ain1"] : List String).contains (uniqueIdHead e.unique_id)))) :=
  ⟨by decide,
   (cleanup_removes_exactly "entry1" ["ain1"] sampleRegistry (by decide)
      (by decide)).1⟩

/-- C7: running cleanup_removed_devices a second time with the same id list
changes nothing: the registry after the second call equals the registry after
the first.  Stated for registries whose entity ids and device ids are unique,
as the platform registries guarantee. -/
theorem cleanup_removed_devices_idempotent (entry_id : String)
    (ains : List String) (reg : Registry)
    (hE : (reg.entities.map (fun e => e.entity_id)).Nodup)
    (hD : (reg.devices.map (fun d => d.id)).Nodup) :
    cleanup_removed_devices entry_id ains
        (cleanup_removed_devices entry_id ains reg) =
      cleanup_removed_devices entry_id ains reg := by
  obtain ⟨he1, hd1⟩ := cleanup_removed_devices_spec entry_id ains reg hE hD
  have hE1 : ((cleanup_removed_devices entry_id ains reg).entities.map
      (fun e => e.entity_id)).Nodup := by
    rw [he1]
    exact ((List.filter_sublist reg.entities).map (fun e => e.entity_id)).nodup hE
  have hD1 : ((cleanup_removed_devices entry_id ains reg).devices.map
      (fun d => d.id)).Nodup := by
    rw [hd1, List.map_map]
    have hids : reg.devices.map ((fun d => d.id) ∘ (fun d =>
        if (d.config_entry_ids.contains entry_id) &&
            !(d.identifiers.any (fun i =>
              (ains.map (fun ain => (DOMAIN, ain))).contains i)) then
          detachDevice entry_id d
        else d)) = reg.devices.map (fun d => d.id) := by
      apply List.map_congr_left
      intro d _
      simp only [Function.comp_apply]
      by_cases hc : ((d.config_entry_ids.contains entry_id) &&
          !(d.identifiers.any (fun i =>
            (ains.map (fun ain => (DOMAIN, ain))).contains i))) = true
      · rw [if_pos hc, detachDevice_id]
      · rw [if_neg hc]
    rw [hids]
    exact hD
  obtain ⟨he2, hd2⟩ := cleanup_removed_devices_spec entry_id ains
    (cleanup_removed_devices entry_id ains reg) hE1 hD1
  apply Registry.ext
  · rw [he2, he1, List.filter_filter]
    apply List.filter_congr
    intro e _
    rw [Bool.and_self]
  · rw [hd2, hd1, List.map_map]
    apply List.map_congr_left
    intro d _
    simp only [Function.comp_apply]
    by_cases hc : ((d.config_entry_ids.contains entry_id) &&
        !(d.identifiers.any (fun i =>
          (ains.map (fun ain => (DOMAIN, ain))).contains i))) = true
    · rw [if_pos hc]
      have hnc : (((detachDevice entry_id d).config_entry_ids.contains entry_id) &&
          !((detachDevice entry_id d).identifiers.any (fun i =>
            (ains.map (fun ain => (DOMAIN, ain))).contains i))) = false := by
        have : (detachDevice entry_id d).config_entry_ids.contains entry_id
            = false := contains_filter_ne d.config_entry_ids entry_id
        rw [this, Bool.false_and]
      rw [if_neg (by rw [hnc]; exact Bool.false_ne_true)]
    · rw [if_neg hc, if_neg hc]

/-- Witness for C7 at a concrete registry and id list. -/
theorem cleanup_removed_devices_idempotent_witness :
    (sampleRegistry.entities.map (fun e => e.entity_id)).Nodup ∧
      cleanup_removed_devices "entry1" ["ain1"]
          (cleanup_removed_devices "entry1" ["ain1"] sampleRegistry) =
        cleanup_removed_devices "entry1" ["ain1"] sampleRegistry :=
  ⟨by decide,
   cleanup_removed_devices_idempotent "entry1" ["ain1"] sampleRegistry
     (by decide) (by decide)⟩

/-- Witness for C8 at a concrete poll cycle where a previously known id is
absent from the new snapshot. -/
theorem cleanup_invoked_iff_removed_witness :
    (updateFritzDevices sampleBehaviorOk sampleState).outcome =
        .ok (fetchSnapshot sampleBehaviorOk sampleState.has_templates) ∧
      ((updateFritzDevices sampleBehaviorOk sampleState).cleanupArg ≠ none ↔
        (∃ k, k ∈ dictKeys sampleState.data.devices ∧
          k ∉ dictKeys (fetchSnapshot sampleBehaviorOk sampleState.has_templates).devices) ∨
        (∃ k, k ∈ dictKeys sampleState.data.templates ∧
          k ∉ dictKeys (fetchSnapshot sampleBehaviorOk sampleState.has_templates).templates)) := by
  have hok : (updateFritzDevices sampleBehaviorOk sampleState).outcome =
      .ok (fetchSnapshot sampleBehaviorOk sampleState.has_templates) := by decide
  exact ⟨hok, (cleanup_invoked_iff_removed sampleBehaviorOk sampleState
    (fetchSnapshot sampleBehaviorOk sampleState.has_templates) hok).1⟩

end Fritzbox

namespace Lutron

/-- C9 counterexample: a released event delivered to a button without release
events (a non-RaiseLower button) fires no event at all, contradicting the
claim that every pressed or released event fires a lutron_event. -/
theorem button_release_fires_nothing_counterexample :
    button_callback ⟨false, "kp_btn", "area_kp_btn", "uuid1"⟩ .released = none :=
  rfl

/-- C9 (amended): the button callback fires exactly one "lutron_event" whose
data is exactly the fixed attribute set id, action, full_id and uuid whenever
it receives a pressed event, or a released event on a button with release
events; a released event on a button without release events fires nothing. -/
theorem button_callback_fires_exactly_when_actionable (btn : LutronButton)
    (event : ButtonEvent) :
    ((event = .pressed ∨ btn.has_release_event = true) →
      ∃ a, button_callback btn event =
        some ⟨"lutron_event",
          [(ATTR_ID, btn.id), (ATTR_ACTION, a), (ATTR_FULL_ID, btn.full_id),
           (ATTR_UUID, btn.uuid)]⟩) ∧
    ((event = .released ∧ btn.has_release_event = false) →
      button_callback btn event = none) := by
  cases event <;> cases hb : btn.has_release_event <;>
    simp [button_callback, hb]

/-- Witness for C9 (amended): a press on a single-action button fires an
event. -/
theorem button_callback_fires_exactly_when_actionable_witness :
    (ButtonEvent.pressed = ButtonEvent.pressed ∨
        (⟨false, "kp", "area kp", "u1"⟩ : LutronButton).has_release_event = true) ∧
      button_callback ⟨false, "kp", "area kp", "u1"⟩ .pressed ≠ none := by
  refine ⟨Or.inl rfl, ?_⟩
  obtain ⟨a, ha⟩ := (button_callback_fires_exactly_when_actionable
      ⟨false, "kp", "area kp", "u1"⟩ .pressed).1 (Or.inl rfl)
  rw [ha]
  simp

/-- Helper: Python round of an integer-valued rational is that integer. -/
lemma pyRound_intCast (n : ℤ) : pyRound ((n : ℤ) : ℚ) = n := by
  unfold pyRound
  rw [Rat.num_intCast, Rat.den_intCast]
  norm_num

/-- C10: setting a target temperature while the mode is COOL or HEAT leaves
the cool setpoint at least three degrees above the heat setpoint: the rounded
target is written to the active mode's setpoint, and the opposite setpoint is
pushed to exactly three degrees away whenever the existing separation would be
smaller, and left alone otherwise. -/
theorem set_temperature_keeps_setpoint_separation (d : HVACDevice) (t : ℚ)
    (e : HVACDevice)
    (hmode : hvac_mode d = some .cool ∨ hvac_mode d = some .heat)
    (h : async_set_temperature (some t) d = .ok e) :
    e.setpoint_cool_f - e.setpoint_heat_f ≥ 3 ∧
    (hvac_mode d = some .cool →
      e.setpoint_cool_f = ((pyRound t : ℤ) : ℚ) ∧
      (((pyRound t : ℤ) : ℚ) - d.setpoint_heat_f < 3 →
        e.setpoint_heat_f = ((pyRound t : ℤ) : ℚ) - 3) ∧
      (3 ≤ ((pyRound t : ℤ) : ℚ) - d.setpoint_heat_f →
        e.setpoint_heat_f = d.setpoint_heat_f)) ∧
    (hvac_mode d = some .heat →
      e.setpoint_heat_f = ((pyRound t : ℤ) : ℚ) ∧
      (d.setpoint_cool_f - ((pyRound t : ℤ) : ℚ) < 3 →
        e.setpoint_cool_f = ((pyRound t : ℤ) : ℚ) + 3) ∧
      (3 ≤ d.setpoint_cool_f - ((pyRound t : ℤ) : ℚ) →
        e.setpoint_cool_f = d.setpoint_cool_f)) := by
  rcases hmode with hm | hm
  · have hne : hvac_mode d ≠ some HVACMode.heat := by
      rw [hm]
      intro hcontra
      exact absurd (Option.some.injEq _ _ ▸ hcontra) (by simp)
    rw [async_set_temperature] at h
    simp only [hm, if_pos rfl] at h
    by_cases hlt : ((pyRound t : ℤ) : ℚ) - d.setpoint_heat_f < 3
    · rw [if_pos hlt] at h
      injection h with h2
      subst h2
      refine ⟨by dsimp; linarith, fun _ => ⟨rfl, fun _ => rfl, fun hge => ?_⟩,
        fun hh => absurd hh hne⟩
      exact absurd hlt (not_lt.mpr hge)
    · rw [if_neg hlt] at h
      injection h with h2
      subst h2
      have hge : 3 ≤ ((pyRound t : ℤ) : ℚ) - d.setpoint_heat_f := not_lt.mp hlt
      refine ⟨by dsimp; linarith, fun _ => ⟨rfl, fun hc => ?_, fun _ => rfl⟩,
        fun hh => absurd hh hne⟩
      exact absurd hc (not_lt.mpr hge)
  · have hne : hvac_mode d ≠ some HVACMode.cool := by
      rw [hm]
      intro hcontra
      exact absurd (Option.some.injEq _ _ ▸ hcontra) (by simp)
    rw [async_set_temperature] at h
    simp only [hm, if_neg hne, if_pos rfl] at h
    by_cases hlt : d.setpoint_cool_f - ((pyRound t : ℤ) : ℚ) < 3
    · rw [if_pos hlt] at h
      injection h with h2
      subst h2
      refine ⟨by dsimp; linarith, fun hh => absurd hh hne,
        fun _ => ⟨rfl, fun _ => rfl, fun hge => ?_⟩⟩
      exact absurd hlt (not_lt.mpr hge)
    · rw [if_neg hlt] at h
      injection h with h2
      subst h2
      have hge : 3 ≤ d.setpoint_cool_f - ((pyRound t : ℤ) : ℚ) := not_lt.mp hlt
      refine ⟨by dsimp; linarith, fun hh => absurd hh hne,
        fun _ => ⟨rfl, fun hc => ?_, fun _ => rfl⟩⟩
      exact absurd hc (not_lt.mpr hge)

/-- Witness for C10: cooling to 76 with heat setpoint 70 keeps the
separation. -/
theorem set_temperature_keeps_setpoint_separation_witness :
    (hvac_mode ⟨"COOL", 70, 72⟩ = some HVACMode.cool ∨
        hvac_mode ⟨"COOL", 70, 72⟩ = some HVACMode.heat) ∧
      (⟨"COOL", 70, 76⟩ : HVACDevice).setpoint_cool_f -
          (⟨"COOL", 70, 76⟩ : HVACDevice).setpoint_heat_f ≥ 3 := by
  have hmode : hvac_mode ⟨"COOL", 70, 72⟩ = some HVACMode.cool := by
    simp [hvac_mode, LUTRON_TO_HVAC_MODES]
  have hround : pyRound (76 : ℚ) = 76 := by
    have h76 : ((76 : ℚ)) = (((76 : ℤ) : ℤ) : ℚ) := by norm_num
    rw [h76, pyRound_intCast]
  have h : async_set_temperature (some 76) ⟨"COOL", 70, 72⟩ =
      .ok ⟨"COOL", 70, 76⟩ := by
    rw [async_set_temperature]
    rw [if_pos hmode]
    simp only [hround]
    norm_num
  exact ⟨Or.inl hmode,
    (set_temperature_keeps_setpoint_separation ⟨"COOL", 70, 72⟩ 76
      ⟨"COOL", 70, 76⟩ (Or.inl hmode) h).1⟩

end Lutron

end HaCore
